import Mathlib

/-!
Shallow embedding of the x402 payment extension of the openclaw repository.

Conventions used throughout:
- JS numbers (message counters, timestamps in milliseconds or seconds) are
  modelled as Int; bigint amounts (USDC base units) are modelled as Int.
- JS Map objects are modelled as association lists (List (String × v)) with
  Map.get as alistLookup, Map.set as alistSet and Map.delete as alistDelete,
  preserving insertion order as the JS Map does.
- JS undefined is modelled as Option.none where a field or value is optional.
- Asynchronous external calls (the x402 facilitator, the viem RPC client, the
  Permit2 on-chain status) are modelled by passing their resolved results as
  explicit parameters, since the code only branches on those results.
-/

/-- Association list lookup, the model of JS Map.get. -/
def alistLookup {v : Type} (l : List (String × v)) (k : String) : Option v :=
  match l with
  | [] => none
  | (k2, x) :: rest => if k2 = k then some x else alistLookup rest k

/-- Association list update-or-append, the model of JS Map.set: an existing key
keeps its position, a new key is appended at the end. -/
def alistSet {v : Type} (l : List (String × v)) (k : String) (x : v) :
    List (String × v) :=
  match l with
  | [] => [(k, x)]
  | (k2, y) :: rest =>
    if k2 = k then (k, x) :: rest else (k2, y) :: alistSet rest k x

/-- Association list deletion, the model of JS Map.delete (removes the first
binding of the key). -/
def alistDelete {v : Type} (l : List (String × v)) (k : String) :
    List (String × v) :=
  match l with
  | [] => []
  | (k2, y) :: rest =>
    if k2 = k then rest else (k2, y) :: alistDelete rest k

/-- Model of the JS String.prototype.toLowerCase for the ASCII strings
(addresses and transaction hashes) the code applies it to, written over the
character list so that it evaluates by kernel reduction. -/
def jsToLower (s : String) : String := String.mk (s.data.map Char.toLower)

/-! ## Types from extensions/x402-payment/src/types.ts -/

/-- Status field of a payment request: "pending" | "paid" | "expired" | "failed". -/
inductive PayStatus where
  | pending
  | paid
  | expired
  | failed
deriving DecidableEq, Repr

/-- Rendering of a PayStatus back to its source string, used by the template
literal in the already-settled error message. -/
def payStatusString : PayStatus → String
  | PayStatus.pending => "pending"
  | PayStatus.paid => "paid"
  | PayStatus.expired => "expired"
  | PayStatus.failed => "failed"

/-- Interface X402PaymentConfig from types.ts. -/
structure X402PaymentConfig where
  enabled : Bool
  network : String
  payTo : String
  pricePerMessage : String
  facilitatorUrl : String
  privateKey : Option String
  freeMessagesPerSession : Int
  telegramPaymentBotUrl : String
deriving DecidableEq, Repr

/-- Interface PaymentSession from types.ts. -/
structure PaymentSession where
  sessionKey : String
  channelId : String
  userId : String
  messageCount : Int
  paidMessageCount : Int
  lastPaymentTxHash : Option String
  lastPaymentTimestamp : Option Int
  pendingPaymentId : Option String
  walletAddress : Option String
deriving DecidableEq, Repr

/-- Interface PaymentRequest from types.ts. -/
structure PaymentRequest where
  id : String
  sessionKey : String
  amount : String
  network : String
  payTo : String
  status : PayStatus
  createdAt : Int
  expiresAt : Int
  txHash : Option String
deriving DecidableEq, Repr

/-- Interface PaymentResult from types.ts. -/
structure PaymentResult where
  success : Bool
  txHash : Option String
  network : Option String
  payer : Option String
  error : Option String
deriving DecidableEq, Repr

/-! ## Functions from extensions/x402-payment/src/payment-flow.ts -/

/-- Combined module-level state of payment-flow.ts: the paymentSessions map and
the pendingPayments map. -/
structure PaymentFlowState where
  paymentSessions : List (String × PaymentSession)
  pendingPayments : List (String × PaymentRequest)
deriving DecidableEq, Repr

/-- Function isPaymentRequired from payment-flow.ts. The source computes
freeMessages as config.freeMessagesPerSession || 3, so a falsy quota (the
number 0; undefined and NaN are not representable in the typed config) falls
back to 3. -/
def isPaymentRequired (session : PaymentSession) (config : X402PaymentConfig) :
    Bool :=
  if !config.enabled then
    false
  else
    let freeMessages : Int :=
      if config.freeMessagesPerSession = 0 then 3
      else config.freeMessagesPerSession
    let unpaidMessages := session.messageCount - session.paidMessageCount
    decide (unpaidMessages ≥ freeMessages)

/-- Follows the words of the spec for the metering decision, for comparison
with isPaymentRequired: false when metering is disabled, otherwise
unpaid ≥ freeQuota with the free-message quota taken literally (including 0). -/
def isPaymentRequiredSpec (session : PaymentSession)
    (config : X402PaymentConfig) : Bool :=
  if !config.enabled then
    false
  else
    decide (session.messageCount - session.paidMessageCount
      ≥ config.freeMessagesPerSession)

/-- Function processPaymentCallback from payment-flow.ts. The awaited call
verifyPayment(paymentSignature, config) reaches the external facilitator; its
resolved value is passed in as facilitatorResult. Date.now() at both call
sites inside the function is passed in as now. Returns the PaymentResult
together with the updated module state. -/
def processPaymentCallback (st : PaymentFlowState) (paymentId : String)
    (now : Int) (facilitatorResult : PaymentResult) :
    PaymentResult × PaymentFlowState :=
  match alistLookup st.pendingPayments paymentId with
  | none =>
    ({ success := false, txHash := none, network := none, payer := none,
       error := some "Payment not found" }, st)
  | some payment =>
    if payment.status ≠ PayStatus.pending then
      ({ success := false, txHash := none, network := none, payer := none,
         error := some ("Payment already " ++ payStatusString payment.status) },
       st)
    else if now > payment.expiresAt then
      ({ success := false, txHash := none, network := none, payer := none,
         error := some "Payment expired" },
       { st with
         pendingPayments := alistSet st.pendingPayments paymentId
           { payment with status := PayStatus.expired } })
    else if facilitatorResult.success then
      let payment2 :=
        { payment with status := PayStatus.paid,
                       txHash := facilitatorResult.txHash }
      let sessions2 :=
        match alistLookup st.paymentSessions payment.sessionKey with
        | none => st.paymentSessions
        | some session =>
          alistSet st.paymentSessions payment.sessionKey
            { session with
              paidMessageCount := session.paidMessageCount + 1,
              lastPaymentTxHash := facilitatorResult.txHash,
              lastPaymentTimestamp := some now,
              pendingPaymentId := none }
      (facilitatorResult,
       { paymentSessions := sessions2,
         pendingPayments := alistSet st.pendingPayments paymentId payment2 })
    else
      (facilitatorResult,
       { st with
         pendingPayments := alistSet st.pendingPayments paymentId
           { payment with status := PayStatus.failed } })

/-- Function cleanupExpiredPayments from payment-flow.ts, as a function of
Date.now() and the pendingPayments map. Every pending request past its expiry
is marked expired and counted; every request that is then non-pending and
older than 24 hours (86400000 ms) from creation is deleted. -/
def cleanupExpiredPayments (now : Int) :
    List (String × PaymentRequest) → List (String × PaymentRequest) × Nat
  | [] => ([], 0)
  | (id, payment) :: rest =>
    let hit := payment.status = PayStatus.pending ∧ now > payment.expiresAt
    let payment1 :=
      if hit then { payment with status := PayStatus.expired } else payment
    let c : Nat := if hit then 1 else 0
    let out := cleanupExpiredPayments now rest
    if payment1.status ≠ PayStatus.pending ∧ now - payment.createdAt > 86400000
    then (out.1, c + out.2)
    else ((id, payment1) :: out.1, c + out.2)

/-! ## Direct on-chain verification from the Telegram integration entry point
(src/unnamed/part_005): verifyPaymentTransaction and the credit step of the
handleMessage branch for the paid command. -/

/-- The Base Sepolia USDC contract address constant USDC_CONTRACT. -/
def USDC_CONTRACT : String := "0x036CbD53842c5426634e7929541eC2318f3dCF7e"

/-- The ERC20 Transfer event topic hash compared against log.topics[0]. -/
def TRANSFER_TOPIC : String :=
  "0xddf252ad1be2c89b69c2b068fc378daa952ba7f163c4a11628f55a4df523b3ef"

/-- One entry of receipt.logs: the address that emitted the log, the indexed
topics, and the numeric value encoded by the data word (the source computes
BigInt(log.data) from the hex string; the model carries the number itself). -/
structure TxLog where
  address : String
  topics : List String
  data : Int
deriving DecidableEq, Repr

/-- The fields of the viem transaction receipt that the code reads. -/
structure TxReceipt where
  status : String
  logs : List TxLog
deriving DecidableEq, Repr

/-- Return shape of verifyPaymentTransaction. The amount field stands for
formatUnits(value, 6) and carries the raw value; fromAddr is the field named
from in the source. -/
structure VerifyTxResult where
  valid : Bool
  error : Option String
  amount : Option Int
  fromAddr : Option String
deriving DecidableEq, Repr

/-- Model of the optional chain topics[i]?.slice(26): a missing topic makes
the template literal produce the text undefined. -/
def topicSlice26 (t : Option String) : String :=
  match t with
  | some s => String.mk (s.data.drop 26)
  | none => "undefined"

/-- The receipt.logs.find predicate: a log of the USDC contract whose first
topic is the Transfer event signature. -/
def isUsdcTransferLog (log : TxLog) : Bool :=
  decide (jsToLower log.address = jsToLower USDC_CONTRACT)
    && decide (log.topics.head? = some TRANSFER_TOPIC)

/-- Function verifyPaymentTransaction from the Telegram integration entry
point. verifiedTxHashes is the module-level consumed-reference set, modelled
as the list of its elements in insertion order (Set.add appends). The awaited
viem getTransactionReceipt call is modelled by the chain parameter; a lookup
miss covers both the falsy-receipt branch and the thrown
not-found error, whose catch clause likewise returns an invalid result
without touching the set. Returns the result and the updated set. -/
def verifyPaymentTransaction (verifiedTxHashes : List String)
    (chain : String → Option TxReceipt) (txHash expectedTo : String)
    (minAmount : Int) : VerifyTxResult × List String :=
  if jsToLower txHash ∈ verifiedTxHashes then
    ({ valid := false, error := some "Transaction already used",
       amount := none, fromAddr := none }, verifiedTxHashes)
  else
    match chain txHash with
    | none =>
      ({ valid := false, error := some "Transaction not found",
         amount := none, fromAddr := none }, verifiedTxHashes)
    | some receipt =>
      if receipt.status ≠ "success" then
        ({ valid := false, error := some "Transaction failed",
           amount := none, fromAddr := none }, verifiedTxHashes)
      else
        match receipt.logs.find? isUsdcTransferLog with
        | none =>
          ({ valid := false,
             error := some "No USDC transfer found in transaction",
             amount := none, fromAddr := none }, verifiedTxHashes)
        | some transferLog =>
          let fromA := "0x" ++ topicSlice26 (transferLog.topics.get? 1)
          let toA := "0x" ++ topicSlice26 (transferLog.topics.get? 2)
          let value := transferLog.data
          if jsToLower toA ≠ jsToLower expectedTo then
            ({ valid := false,
               error := some ("Wrong recipient: expected " ++ expectedTo
                 ++ ", got " ++ toA),
               amount := none, fromAddr := none }, verifiedTxHashes)
          else if value < minAmount then
            ({ valid := false,
               error := some ("Insufficient amount: expected "
                 ++ toString minAmount ++ ", got " ++ toString value
                 ++ " USDC"),
               amount := none, fromAddr := none }, verifiedTxHashes)
          else
            ({ valid := true, error := none, amount := some value,
               fromAddr := some fromA },
             verifiedTxHashes ++ [jsToLower txHash])

/-- The session-credit step of the paid command branch of handleMessage in the
Telegram integration entry point: on an invalid verification result the
handler returns without touching the session; on a valid result it runs
session.paidMessageCount += 3 (the source comment reads Grant 3 more
messages). -/
def applyPaidCommandCredit (session : PaymentSession)
    (result : VerifyTxResult) : PaymentSession :=
  if !result.valid then session
  else { session with paidMessageCount := session.paidMessageCount + 3 }

/-! ## The AutoPaymentProcessor from
extensions/x402-payment/src/permit2/approval-flow.ts -/

/-- Interface UserPaymentAuthorization from approval-flow.ts. The optional
permit object payload is carried opaquely by permitSignature only; neither
field is ever read after being stored. -/
structure UserPaymentAuthorization where
  userAddress : String
  permitSignature : Option String
  authorizedAmount : Int
  spentAmount : Int
  expiresAt : Int
  createdAt : Int
deriving DecidableEq, Repr

/-- Interface PaymentRequest from approval-flow.ts (renamed, since the
payment-flow module declares a different PaymentRequest). -/
structure AutoPaymentRequest where
  userId : String
  userAddress : String
  amount : Int
  reason : String
deriving DecidableEq, Repr

/-- Interface PaymentResult from approval-flow.ts (renamed for the same
reason). -/
structure AutoPayResult where
  success : Bool
  txHash : Option String
  error : Option String
  remainingBalance : Option Int
deriving DecidableEq, Repr

/-- Interface AutoPaymentConfig after the constructor has applied the default
values for minBalanceThreshold (1 USDC) and maxPaymentAmount (100 USDC), so
both fields are present. -/
structure AutoPaymentConfig where
  chainId : Int
  spenderAddress : String
  recipientAddress : String
  minBalanceThreshold : Int
  maxPaymentAmount : Int
deriving DecidableEq, Repr

/-- The fields of the Permit2ApprovalStatus returned by the awaited
client.checkApprovalStatus call that checkAuthorization reads. -/
structure OnChainStatus where
  needsApproval : Bool
  needsPermit2Allowance : Bool
  allowanceAmount : Int
  allowanceExpiration : Int
deriving DecidableEq, Repr

/-- Return shape of checkAuthorization. -/
structure AuthCheckOutcome where
  authorized : Bool
  remainingBalance : Int
  needsReauthorization : Bool
  message : String
deriving DecidableEq, Repr

/-- Method getUserKey of AutoPaymentProcessor. -/
def getUserKey (userId userAddress : String) : String :=
  userId ++ ":" ++ jsToLower userAddress

/-- Method registerAuthorization of AutoPaymentProcessor: installs or replaces
the record in the userAuthorizations map, with spentAmount reset to zero and
createdAt stamped from Date.now() (passed in as now). -/
def registerAuthorization (auths : List (String × UserPaymentAuthorization))
    (userId userAddress : String) (authorizedAmount expiresAt : Int)
    (permitSignature : Option String) (now : Int) :
    List (String × UserPaymentAuthorization) :=
  alistSet auths (getUserKey userId userAddress)
    { userAddress := userAddress,
      permitSignature := permitSignature,
      authorizedAmount := authorizedAmount,
      spentAmount := 0,
      expiresAt := expiresAt,
      createdAt := now }

/-- Method checkAuthorization of AutoPaymentProcessor. The awaited on-chain
status call is passed in as onChain; now is Math.floor(Date.now() / 1000).
Evaluates in order: no record, expiry (expiresAt ≤ now), remaining balance
below the requested amount, on-chain allowance missing; otherwise authorized,
flagging needsReauthorization when the remaining balance is under the
configured threshold. The formatUnits renderings inside the messages are
abstracted to toString of the base-unit amount. -/
def checkAuthorization (cfg : AutoPaymentConfig)
    (auths : List (String × UserPaymentAuthorization))
    (onChain : OnChainStatus) (userId userAddress : String)
    (amount now : Int) : AuthCheckOutcome :=
  match alistLookup auths (getUserKey userId userAddress) with
  | none =>
    { authorized := false, remainingBalance := 0,
      needsReauthorization := true,
      message := "No payment authorization found. Please set up automatic payments." }
  | some auth =>
    if auth.expiresAt ≤ now then
      { authorized := false, remainingBalance := 0,
        needsReauthorization := true,
        message := "Your payment authorization has expired. Please reauthorize." }
    else
      let remainingBalance := auth.authorizedAmount - auth.spentAmount
      if remainingBalance < amount then
        { authorized := false, remainingBalance := remainingBalance,
          needsReauthorization := true,
          message := "Insufficient authorized balance. Remaining: "
            ++ toString remainingBalance ++ " USDC" }
      else if onChain.needsApproval || onChain.needsPermit2Allowance then
        { authorized := false, remainingBalance := remainingBalance,
          needsReauthorization := true,
          message := "On-chain authorization expired. Please reauthorize." }
      else
        { authorized := true, remainingBalance := remainingBalance,
          needsReauthorization :=
            decide (remainingBalance < cfg.minBalanceThreshold),
          message := "Authorization valid. Balance: "
            ++ toString remainingBalance ++ " USDC" }

/-- The synchronous prefix of processPayment, up to and including the awaited
checkAuthorization call: the per-transaction ceiling check and the
authorization check, both evaluated against the state at call time. Returns
some early failure result, or none when the call proceeds to the commit. -/
def processPaymentPhase1 (cfg : AutoPaymentConfig)
    (auths : List (String × UserPaymentAuthorization))
    (onChain : OnChainStatus) (now : Int) (request : AutoPaymentRequest) :
    Option AutoPayResult :=
  if request.amount > cfg.maxPaymentAmount then
    some { success := false, txHash := none,
           error := some ("Amount exceeds maximum: "
             ++ toString cfg.maxPaymentAmount ++ " USDC"),
           remainingBalance := none }
  else
    let authCheck := checkAuthorization cfg auths onChain request.userId
      request.userAddress request.amount now
    if !authCheck.authorized then
      some { success := false, txHash := none,
             error := some authCheck.message, remainingBalance := none }
    else
      none

/-- The resumed suffix of processPayment after the awaited authorization
check: re-reads the authorization from the map (the state as it is at resume
time), increments spentAmount by the requested amount, stores the record back
and reports the simulated settlement reference (the source draws a random
hash; it is passed in as simTxHash). -/
def processPaymentCommit (auths : List (String × UserPaymentAuthorization))
    (simTxHash : String) (request : AutoPaymentRequest) :
    AutoPayResult × List (String × UserPaymentAuthorization) :=
  match alistLookup auths (getUserKey request.userId request.userAddress) with
  | none =>
    ({ success := false, txHash := none,
       error := some "Authorization not found", remainingBalance := none },
     auths)
  | some auth =>
    let auth2 := { auth with spentAmount := auth.spentAmount + request.amount }
    ({ success := true, txHash := some simTxHash, error := none,
       remainingBalance := some (auth2.authorizedAmount - auth2.spentAmount) },
     alistSet auths (getUserKey request.userId request.userAddress) auth2)

/-- Method processPayment of AutoPaymentProcessor, run to completion without
interleaving: the synchronous prefix followed immediately by the commit. -/
def processPayment (cfg : AutoPaymentConfig)
    (auths : List (String × UserPaymentAuthorization))
    (onChain : OnChainStatus) (now : Int) (simTxHash : String)
    (request : AutoPaymentRequest) :
    AutoPayResult × List (String × UserPaymentAuthorization) :=
  match processPaymentPhase1 cfg auths onChain now request with
  | some earlyFailure => (earlyFailure, auths)
  | none => processPaymentCommit auths simTxHash request

/-- Method revokeAuthorization of AutoPaymentProcessor: Map.delete, reporting
whether a record existed. -/
def revokeAuthorization (auths : List (String × UserPaymentAuthorization))
    (userId userAddress : String) :
    Bool × List (String × UserPaymentAuthorization) :=
  let key := getUserKey userId userAddress
  ((alistLookup auths key).isSome, alistDelete auths key)

/-- Method processPendingPayments of AutoPaymentProcessor: drains the pending
queue strictly in arrival order, running processPayment on each entry and
collecting one result per entry. The on-chain status, clock and simulated
hash are held fixed across the drain. -/
def processPendingPayments (cfg : AutoPaymentConfig)
    (auths : List (String × UserPaymentAuthorization))
    (onChain : OnChainStatus) (now : Int) (simTxHash : String) :
    List AutoPaymentRequest →
    List AutoPayResult × List (String × UserPaymentAuthorization)
  | [] => ([], auths)
  | request :: rest =>
    let out := processPayment cfg auths onChain now simTxHash request
    let outRest := processPendingPayments cfg out.2 onChain now simTxHash rest
    (out.1 :: outRest.1, outRest.2)

/-- Two processPayment calls against the same state interleaved at the await
boundary inside each call: both synchronous prefixes run first (call one
suspends at its awaited on-chain status check without having mutated
anything, so call two observes the same state), then each call that passed
its checks resumes and commits, in order. -/
def processPaymentInterleavedPair (cfg : AutoPaymentConfig)
    (auths : List (String × UserPaymentAuthorization))
    (onChain : OnChainStatus) (now : Int) (tx1 tx2 : String)
    (r1 r2 : AutoPaymentRequest) :
    AutoPayResult × AutoPayResult × List (String × UserPaymentAuthorization) :=
  let d1 := processPaymentPhase1 cfg auths onChain now r1
  let d2 := processPaymentPhase1 cfg auths onChain now r2
  match d1 with
  | some e1 =>
    match d2 with
    | some e2 => (e1, e2, auths)
    | none =>
      let out2 := processPaymentCommit auths tx2 r2
      (e1, out2.1, out2.2)
  | none =>
    let out1 := processPaymentCommit auths tx1 r1
    match d2 with
    | some e2 => (out1.1, e2, out1.2)
    | none =>
      let out2 := processPaymentCommit out1.2 tx2 r2
      (out1.1, out2.1, out2.2)

/-- The invariant of claim C6 over the userAuthorizations map: every stored
record has spentAmount at most authorizedAmount. Declared reducible so that
the bounded-forall Decidable instance applies to concrete maps. -/
abbrev AuthInvariant (auths : List (String × UserPaymentAuthorization)) :
    Prop :=
  ∀ e ∈ auths, e.2.spentAmount ≤ e.2.authorizedAmount

/-! ## Configuration resolution from extensions/x402-payment/src/config.ts

The JS object semantics matter here, so each field of a config object is
modelled at two levels: the outer Option records whether the key is present
on the object at all, the inner Option records whether its value is defined
(none models undefined). Object spread copies every present key, including
keys whose value is undefined. -/

/-- A config object under JS object semantics, covering every key of the
X402PaymentConfig interface. The freeMessagesPerSession value is a JS number,
whose innermost Option models NaN (the possible result of parseInt) as none. -/
structure JsConfigObject where
  enabled : Option (Option Bool)
  network : Option (Option String)
  payTo : Option (Option String)
  pricePerMessage : Option (Option String)
  facilitatorUrl : Option (Option String)
  privateKey : Option (Option String)
  freeMessagesPerSession : Option (Option (Option Int))
  telegramPaymentBotUrl : Option (Option String)
deriving DecidableEq, Repr

/-- The constant DEFAULT_CONFIG from config.ts, as a JS object: every key
present with a defined value, except privateKey which the literal omits. -/
def DEFAULT_CONFIG : JsConfigObject :=
  { enabled := some (some false),
    network := some (some "eip155:84532"),
    payTo := some (some ""),
    pricePerMessage := some (some "$0.01"),
    facilitatorUrl := some (some "https://x402.org/facilitator"),
    privateKey := none,
    freeMessagesPerSession := some (some (some 3)),
    telegramPaymentBotUrl := some (some "https://openclaw.ai/pay") }

/-- Model of the idiom value || undefined applied to an environment lookup: an
unset variable and an empty (falsy) string both produce undefined. -/
def jsOrUndefined (v : Option String) : Option String :=
  match v with
  | some s => if s = "" then none else some s
  | none => none

/-- Model of parseInt(s, 10): leading whitespace is skipped, an optional sign
is consumed, and the longest leading run of decimal digits gives the value;
none models NaN when no digit is found. -/
def parseIntJS (s : String) : Option Int :=
  let t := s.toList.dropWhile Char.isWhitespace
  let signed : Bool × List Char :=
    match t with
    | '-' :: rest => (true, rest)
    | '+' :: rest => (false, rest)
    | _ => (false, t)
  let digits := signed.2.takeWhile Char.isDigit
  if digits.isEmpty then none
  else
    let magnitude : Nat :=
      digits.foldl (fun acc c => acc * 10 + (c.toNat - 48)) 0
    some (if signed.1 then -(magnitude : Int) else (magnitude : Int))

/-- Function loadConfigFromEnv from config.ts, as a function of the process
environment. Every key of the returned object literal is present; the enabled
value is the strict comparison of X402_ENABLED with the string true, and every
other value is the environment value or undefined (via || or a truthiness
ternary for the parsed X402_FREE_MESSAGES). -/
def loadConfigFromEnv (env : String → Option String) : JsConfigObject :=
  { enabled := some (some (decide (env "X402_ENABLED" = some "true"))),
    network := some (jsOrUndefined (env "X402_NETWORK")),
    payTo := some (jsOrUndefined (env "X402_PAY_TO")),
    pricePerMessage := some (jsOrUndefined (env "X402_PRICE_PER_MESSAGE")),
    facilitatorUrl := some (jsOrUndefined (env "X402_FACILITATOR_URL")),
    privateKey := some (jsOrUndefined (env "X402_PRIVATE_KEY")),
    freeMessagesPerSession := some
      (match env "X402_FREE_MESSAGES" with
       | some s => if s = "" then none else some (parseIntJS s)
       | none => none),
    telegramPaymentBotUrl := some
      (jsOrUndefined (env "X402_TELEGRAM_PAYMENT_URL")) }

/-- One field of the object spread: a key present on the later object (whatever
its value, undefined included) overrides the earlier object. -/
def fieldOverlay {v : Type} (a b : Option v) : Option v :=
  match b with
  | some x => some x
  | none => a

/-- Function resolveConfig from config.ts: the spread
of DEFAULT_CONFIG, the supplied plugin config and loadConfigFromEnv, field by
field. An absent pluginConfig argument is the object with no keys. -/
def resolveConfig (env : String → Option String)
    (pluginConfig : JsConfigObject) : JsConfigObject :=
  let e := loadConfigFromEnv env
  { enabled :=
      fieldOverlay (fieldOverlay DEFAULT_CONFIG.enabled pluginConfig.enabled)
        e.enabled,
    network :=
      fieldOverlay (fieldOverlay DEFAULT_CONFIG.network pluginConfig.network)
        e.network,
    payTo :=
      fieldOverlay (fieldOverlay DEFAULT_CONFIG.payTo pluginConfig.payTo)
        e.payTo,
    pricePerMessage :=
      fieldOverlay
        (fieldOverlay DEFAULT_CONFIG.pricePerMessage
          pluginConfig.pricePerMessage) e.pricePerMessage,
    facilitatorUrl :=
      fieldOverlay
        (fieldOverlay DEFAULT_CONFIG.facilitatorUrl
          pluginConfig.facilitatorUrl) e.facilitatorUrl,
    privateKey :=
      fieldOverlay
        (fieldOverlay DEFAULT_CONFIG.privateKey pluginConfig.privateKey)
        e.privateKey,
    freeMessagesPerSession :=
      fieldOverlay
        (fieldOverlay DEFAULT_CONFIG.freeMessagesPerSession
          pluginConfig.freeMessagesPerSession) e.freeMessagesPerSession,
    telegramPaymentBotUrl :=
      fieldOverlay
        (fieldOverlay DEFAULT_CONFIG.telegramPaymentBotUrl
          pluginConfig.telegramPaymentBotUrl) e.telegramPaymentBotUrl }

/-- The environment with no x402 variables set. -/
def emptyEnv : String → Option String := fun _ => none

/-- A plugin configuration supplying the enabled flag and the
security-relevant fields, used to exhibit the resolution behavior. -/
def pluginConfigC9 : JsConfigObject :=
  { enabled := some (some true),
    network := some (some "eip155:8453"),
    payTo := some (some "0x1111111111111111111111111111111111111111"),
    pricePerMessage := some (some "$0.02"),
    facilitatorUrl := none,
    privateKey := none,
    freeMessagesPerSession := some (some (some 5)),
    telegramPaymentBotUrl := none }

/-! ## Concrete fixtures used by counterexamples and witnesses -/

/-- An enabled policy whose free-message quota is 0. -/
def cfgEnabledQ0 : X402PaymentConfig :=
  { enabled := true,
    network := "eip155:84532",
    payTo := "0xBf30B87972F7A1e1fA018615d636b2C3c7bcA8Ef",
    pricePerMessage := "$0.01",
    facilitatorUrl := "https://x402.org/facilitator",
    privateKey := none,
    freeMessagesPerSession := 0,
    telegramPaymentBotUrl := "http://localhost:8402" }

/-- A fresh session with zero counters. -/
def sessionZero : PaymentSession :=
  { sessionKey := "telegram:1:2",
    channelId := "telegram",
    userId := "2",
    messageCount := 0,
    paidMessageCount := 0,
    lastPaymentTxHash := none,
    lastPaymentTimestamp := none,
    pendingPaymentId := none,
    walletAddress := none }

/-- A session that has exhausted its free quota and has a pending request. -/
def sessionA : PaymentSession :=
  { sessionKey := "s1",
    channelId := "telegram",
    userId := "2",
    messageCount := 4,
    paidMessageCount := 0,
    lastPaymentTxHash := none,
    lastPaymentTimestamp := none,
    pendingPaymentId := some "pay_1",
    walletAddress := none }

/-- A pending payment request for sessionA, expiring at time 100. -/
def requestA : PaymentRequest :=
  { id := "pay_1",
    sessionKey := "s1",
    amount := "$0.01",
    network := "eip155:84532",
    payTo := "0xBf30B87972F7A1e1fA018615d636b2C3c7bcA8Ef",
    status := PayStatus.pending,
    createdAt := 0,
    expiresAt := 100,
    txHash := none }

/-- A payment-flow state holding sessionA and requestA. -/
def flowStateA : PaymentFlowState :=
  { paymentSessions := [("s1", sessionA)],
    pendingPayments := [("pay_1", requestA)] }

/-- An affirmative facilitator verification result. -/
def facilitatorOK : PaymentResult :=
  { success := true,
    txHash := some "0xfeed",
    network := some "eip155:84532",
    payer := some "0xpayer",
    error := none }

/-- A successful direct-verification result. -/
def validVerify : VerifyTxResult :=
  { valid := true, error := none, amount := some 10000,
    fromAddr := some "0xsender" }

/-- A receipt log matching the USDC Transfer pattern, whose recipient topic
decodes (after the 26-character slice) to the string dest. -/
def goodLog : TxLog :=
  { address := USDC_CONTRACT,
    topics := [TRANSFER_TOPIC,
      "00000000000000000000000000sender",
      "00000000000000000000000000dest"],
    data := 10000 }

/-- A successful receipt containing goodLog. -/
def receiptOK : TxReceipt := { status := "success", logs := [goodLog] }

/-- A chain in which exactly the transaction 0xAAA exists, with receiptOK. -/
def chainOK : String → Option TxReceipt :=
  fun h => if h = "0xAAA" then some receiptOK else none

/-- An authorization with budget left but already at its expiry. -/
def authExpired : UserPaymentAuthorization :=
  { userAddress := "0xa", permitSignature := none,
    authorizedAmount := 100, spentAmount := 0,
    expiresAt := 50, createdAt := 0 }

/-- The authorization map holding authExpired under its user key. -/
def authsExpired : List (String × UserPaymentAuthorization) :=
  [("u:0xa", authExpired)]

/-- A live authorization with spent 2 of 10. -/
def authLive : UserPaymentAuthorization :=
  { userAddress := "0xa", permitSignature := none,
    authorizedAmount := 10, spentAmount := 2,
    expiresAt := 1000, createdAt := 0 }

/-- The authorization map holding authLive under its user key. -/
def authsLive : List (String × UserPaymentAuthorization) :=
  [("u:0xa", authLive)]

/-- A live authorization with remaining balance exactly 10. -/
def authTen : UserPaymentAuthorization :=
  { userAddress := "0xa", permitSignature := none,
    authorizedAmount := 10, spentAmount := 0,
    expiresAt := 1000000000, createdAt := 0 }

/-- The authorization map holding authTen under its user key. -/
def authsTen : List (String × UserPaymentAuthorization) :=
  [("u:0xa", authTen)]

/-- An on-chain status in which the allowance is live and sufficient. -/
def onChainOK : OnChainStatus :=
  { needsApproval := false, needsPermit2Allowance := false,
    allowanceAmount := 1000000, allowanceExpiration := 2000000000 }

/-- A resolved auto-payment configuration. -/
def cfgAuto : AutoPaymentConfig :=
  { chainId := 84532,
    spenderAddress := "0xspender",
    recipientAddress := "0xBf30B87972F7A1e1fA018615d636b2C3c7bcA8Ef",
    minBalanceThreshold := 1,
    maxPaymentAmount := 100000000 }

/-- A charge request of 6 base units against the user of authTen. -/
def requestSix : AutoPaymentRequest :=
  { userId := "u", userAddress := "0xa", amount := 6, reason := "ai-usage" }

/-! ## Helper lemmas -/

/-- Updating a key and then looking it up yields the stored value. -/
theorem alistLookup_alistSet_self {v : Type} (l : List (String × v))
    (k : String) (x : v) : alistLookup (alistSet l k x) k = some x := by
  induction l with
  | nil => simp [alistSet, alistLookup]
  | cons hd tl ih =>
    obtain ⟨k2, y⟩ := hd
    by_cases h : k2 = k
    · simp [alistSet, alistLookup, h]
    · simp [alistSet, alistLookup, h, ih]

/-- Every entry of an updated association list is the new binding or an entry
of the original list. -/
theorem mem_alistSet {v : Type} (l : List (String × v)) (k : String) (x : v)
    (e : String × v) (he : e ∈ alistSet l k x) : e = (k, x) ∨ e ∈ l := by
  induction l with
  | nil => simpa [alistSet] using he
  | cons hd tl ih =>
    obtain ⟨k2, y⟩ := hd
    by_cases h : k2 = k
    · simp only [alistSet, if_pos h] at he
      rcases List.mem_cons.mp he with h1 | h1
      · exact Or.inl h1
      · exact Or.inr (List.mem_cons.mpr (Or.inr h1))
    · simp only [alistSet, if_neg h] at he
      rcases List.mem_cons.mp he with h1 | h1
      · exact Or.inr (List.mem_cons.mpr (Or.inl h1))
      · rcases ih h1 with h2 | h2
        · exact Or.inl h2
        · exact Or.inr (List.mem_cons.mpr (Or.inr h2))

/-- Every entry surviving a deletion was an entry of the original list. -/
theorem mem_alistDelete {v : Type} (l : List (String × v)) (k : String)
    (e : String × v) (he : e ∈ alistDelete l k) : e ∈ l := by
  induction l with
  | nil => simp [alistDelete] at he
  | cons hd tl ih =>
    obtain ⟨k2, y⟩ := hd
    by_cases h : k2 = k
    · simp only [alistDelete, if_pos h] at he
      exact List.mem_cons.mpr (Or.inr he)
    · simp only [alistDelete, if_neg h] at he
      rcases List.mem_cons.mp he with h1 | h1
      · exact List.mem_cons.mpr (Or.inl h1)
      · exact List.mem_cons.mpr (Or.inr (ih h1))

/-! ## Claim C1 -/

/-- C1 counterexample: with metering enabled and a free-message quota of 0,
the spec formula requires payment for a fresh session (0 unpaid ≥ quota 0),
but isPaymentRequired returns false, because the source evaluates
config.freeMessagesPerSession || 3 and the falsy quota 0 falls back to 3. -/
theorem C1_counterexample :
    cfgEnabledQ0.enabled = true ∧
    cfgEnabledQ0.freeMessagesPerSession = 0 ∧
    isPaymentRequiredSpec sessionZero cfgEnabledQ0 = true ∧
    isPaymentRequired sessionZero cfgEnabledQ0 = false := by
  decide

/-- C1 amended: isPaymentRequired returns false whenever metering is
disabled; otherwise it returns unpaid ≥ q where unpaid is
messageCount − paidMessageCount and the effective quota q is the free-message
quota of the policy when that quota is nonzero, and 3 when it is 0. -/
theorem C1_thm : ∀ (s : PaymentSession) (c : X402PaymentConfig),
    isPaymentRequired s c =
      (c.enabled && decide (s.messageCount - s.paidMessageCount ≥
        (if c.freeMessagesPerSession = 0 then 3
         else c.freeMessagesPerSession))) := by
  intro s c
  unfold isPaymentRequired
  cases hc : c.enabled <;> simp

/-! ## Claim C2 -/

/-- C2 counterexample: in the direct on-chain verification strategy, a
successful verification makes the caller credit the owning session by 3 (the
free-quota size of the test configuration), not by 1. -/
theorem C2_counterexample :
    validVerify.valid = true ∧
    (applyPaidCommandCredit sessionZero validVerify).paidMessageCount
      = sessionZero.paidMessageCount + 3 ∧
    (applyPaidCommandCredit sessionZero validVerify).paidMessageCount
      ≠ sessionZero.paidMessageCount + 1 := by
  decide

/-- C2 amended: when settlement verification succeeds in the facilitator
path, the owning session is credited by exactly 1 paid message, its
last-settlement reference and time are stamped, its pending-request reference
is cleared, and the request is marked paid with the settlement reference; in
the direct on-chain path the caller instead credits paidMessageCount by 3,
the free-quota size. -/
theorem C2_thm : ∀ (st : PaymentFlowState) (pid : String) (now : Int)
    (fr : PaymentResult) (p : PaymentRequest) (s : PaymentSession),
    alistLookup st.pendingPayments pid = some p →
    p.status = PayStatus.pending →
    now ≤ p.expiresAt →
    fr.success = true →
    alistLookup st.paymentSessions p.sessionKey = some s →
    (alistLookup (processPaymentCallback st pid now fr).2.paymentSessions
        p.sessionKey =
      some { s with paidMessageCount := s.paidMessageCount + 1,
                    lastPaymentTxHash := fr.txHash,
                    lastPaymentTimestamp := some now,
                    pendingPaymentId := none }) ∧
    (alistLookup (processPaymentCallback st pid now fr).2.pendingPayments
        pid =
      some { p with status := PayStatus.paid, txHash := fr.txHash }) ∧
    (processPaymentCallback st pid now fr).1 = fr ∧
    (∀ (sess : PaymentSession) (r : VerifyTxResult), r.valid = true →
      (applyPaidCommandCredit sess r).paidMessageCount
        = sess.paidMessageCount + 3) := by
  intro st pid now fr p s hlook hpend hexp hsucc hsess
  have hnotlate : ¬ now > p.expiresAt := not_lt.mpr hexp
  refine ⟨?_, ?_, ?_, ?_⟩
  · simp only [processPaymentCallback, hlook, hpend, hnotlate, hsucc, hsess]
    simp [alistLookup_alistSet_self]
  · simp only [processPaymentCallback, hlook, hpend, hnotlate, hsucc, hsess]
    simp [alistLookup_alistSet_self]
  · simp [processPaymentCallback, hlook, hpend, hnotlate, hsucc]
  · intro sess r hr
    simp [applyPaidCommandCredit, hr]

/-- C2 witness: the facilitator path at a concrete state credits the session
by exactly 1 and stamps it, and the direct path credits by 3. -/
theorem C2_witness :
    (alistLookup flowStateA.pendingPayments "pay_1" = some requestA ∧
     requestA.status = PayStatus.pending ∧
     (50 : Int) ≤ requestA.expiresAt ∧
     facilitatorOK.success = true ∧
     alistLookup flowStateA.paymentSessions requestA.sessionKey
       = some sessionA) ∧
    (alistLookup
        (processPaymentCallback flowStateA "pay_1" 50
          facilitatorOK).2.paymentSessions requestA.sessionKey =
      some { sessionA with
             paidMessageCount := sessionA.paidMessageCount + 1,
             lastPaymentTxHash := facilitatorOK.txHash,
             lastPaymentTimestamp := some 50,
             pendingPaymentId := none }) ∧
    (applyPaidCommandCredit sessionZero validVerify).paidMessageCount
      = sessionZero.paidMessageCount + 3 :=
  ⟨⟨by decide, by decide, by decide, by decide, by decide⟩,
   (C2_thm flowStateA "pay_1" 50 facilitatorOK requestA sessionA
     (by decide) (by decide) (by decide) (by decide) (by decide)).1,
   (C2_thm flowStateA "pay_1" 50 facilitatorOK requestA sessionA
     (by decide) (by decide) (by decide) (by decide) (by decide)).2.2.2
     sessionZero validVerify (by decide)⟩

/-! ## Claim C4 -/

/-- C4: when processPaymentCallback runs at a time past the expiry of the
looked-up request, the call fails, the session store is left untouched (no
credit), a pending request is transitioned to expired, and an already
terminal request leaves the whole state unchanged (rejected as already
settled). This holds for every facilitator result, in particular for one the
facilitator would accept. -/
theorem C4_thm : ∀ (st : PaymentFlowState) (pid : String) (now : Int)
    (fr : PaymentResult) (p : PaymentRequest),
    alistLookup st.pendingPayments pid = some p →
    now > p.expiresAt →
    (processPaymentCallback st pid now fr).1.success = false ∧
    (processPaymentCallback st pid now fr).2.paymentSessions
      = st.paymentSessions ∧
    (p.status = PayStatus.pending →
      alistLookup (processPaymentCallback st pid now fr).2.pendingPayments pid
        = some { p with status := PayStatus.expired }) ∧
    (p.status ≠ PayStatus.pending →
      (processPaymentCallback st pid now fr).2 = st) := by
  intro st pid now fr p hlook hlate
  by_cases hpend : p.status = PayStatus.pending
  · refine ⟨?_, ?_, ?_, ?_⟩
    · simp [processPaymentCallback, hlook, hpend, hlate]
    · simp [processPaymentCallback, hlook, hpend, hlate]
    · intro _
      simp only [processPaymentCallback, hlook, hpend, hlate]
      simp [alistLookup_alistSet_self]
    · intro hcontra
      exact absurd hpend hcontra
  · refine ⟨?_, ?_, ?_, ?_⟩
    · simp [processPaymentCallback, hlook, hpend]
    · simp [processPaymentCallback, hlook, hpend]
    · intro hcontra
      exact absurd hcontra hpend
    · intro _
      simp [processPaymentCallback, hlook, hpend]

/-- C4 witness: a pending request expiring at 100, submitted at 200 with a
facilitator result that would be accepted, fails, leaves the sessions alone
and ends expired. -/
theorem C4_witness :
    (alistLookup flowStateA.pendingPayments "pay_1" = some requestA ∧
     (200 : Int) > requestA.expiresAt) ∧
    (processPaymentCallback flowStateA "pay_1" 200 facilitatorOK).1.success
      = false ∧
    (processPaymentCallback flowStateA "pay_1" 200
      facilitatorOK).2.paymentSessions = flowStateA.paymentSessions ∧
    alistLookup (processPaymentCallback flowStateA "pay_1" 200
        facilitatorOK).2.pendingPayments "pay_1"
      = some { requestA with status := PayStatus.expired } :=
  ⟨⟨by decide, by decide⟩,
   (C4_thm flowStateA "pay_1" 200 facilitatorOK requestA
     (by decide) (by decide)).1,
   (C4_thm flowStateA "pay_1" 200 facilitatorOK requestA
     (by decide) (by decide)).2.1,
   (C4_thm flowStateA "pay_1" 200 facilitatorOK requestA
     (by decide) (by decide)).2.2.1 (by decide)⟩

/-! ## Claims C3 and C10 -/

/-- Case split over the outcome of verifyPaymentTransaction: either it fails
and the consumed set is unchanged, or it succeeds and exactly the lowercased
reference is appended. -/
theorem verifyPaymentTransaction_cases (cons : List String)
    (chain : String → Option TxReceipt) (tx eTo : String) (amt : Int) :
    ((verifyPaymentTransaction cons chain tx eTo amt).1.valid = false ∧
     (verifyPaymentTransaction cons chain tx eTo amt).2 = cons) ∨
    ((verifyPaymentTransaction cons chain tx eTo amt).1.valid = true ∧
     (verifyPaymentTransaction cons chain tx eTo amt).2
       = cons ++ [jsToLower tx]) := by
  unfold verifyPaymentTransaction
  split
  · exact Or.inl ⟨rfl, rfl⟩
  · split
    · exact Or.inl ⟨rfl, rfl⟩
    · split
      · exact Or.inl ⟨rfl, rfl⟩
      · split
        · exact Or.inl ⟨rfl, rfl⟩
        · dsimp only
          split
          · exact Or.inl ⟨rfl, rfl⟩
          · split
            · exact Or.inl ⟨rfl, rfl⟩
            · exact Or.inr ⟨rfl, rfl⟩

/-- When the direct verification succeeds, the set afterwards contains the
lowercased reference. -/
theorem verifyPaymentTransaction_success_mem (cons : List String)
    (chain : String → Option TxReceipt) (tx eTo : String) (amt : Int)
    (h : (verifyPaymentTransaction cons chain tx eTo amt).1.valid = true) :
    jsToLower tx ∈ (verifyPaymentTransaction cons chain tx eTo amt).2 := by
  rcases verifyPaymentTransaction_cases cons chain tx eTo amt with h1 | h1
  · rw [h1.1] at h
    exact absurd h (by simp)
  · rw [h1.2]
    exact List.mem_append_right cons (List.mem_singleton.mpr rfl)

/-- Rejection of an already-consumed reference, independent of every other
input. -/
theorem verifyPaymentTransaction_consumed (cons : List String)
    (chain : String → Option TxReceipt) (tx eTo : String) (amt : Int)
    (h : jsToLower tx ∈ cons) :
    (verifyPaymentTransaction cons chain tx eTo amt).1.valid = false ∧
    (verifyPaymentTransaction cons chain tx eTo amt).1.error
      = some "Transaction already used" ∧
    (verifyPaymentTransaction cons chain tx eTo amt).2 = cons := by
  unfold verifyPaymentTransaction
  rw [if_pos h]
  exact ⟨rfl, rfl, rfl⟩

/-- C3: a consumed reference is rejected before any other validation, for
every state of the chain, expected recipient and minimum amount (so even
where the transaction would verify, or could not even be fetched); and a
reference that has once verified successfully is rejected as already used on
every later attempt, whatever the chain then answers. -/
theorem C3_thm : ∀ (cons : List String)
    (chain : String → Option TxReceipt) (tx eTo : String) (amt : Int),
    (jsToLower tx ∈ cons →
      (verifyPaymentTransaction cons chain tx eTo amt).1.valid = false ∧
      (verifyPaymentTransaction cons chain tx eTo amt).1.error
        = some "Transaction already used" ∧
      (verifyPaymentTransaction cons chain tx eTo amt).2 = cons) ∧
    ((verifyPaymentTransaction cons chain tx eTo amt).1.valid = true →
      ∀ (chain2 : String → Option TxReceipt) (to2 : String) (amt2 : Int),
        (verifyPaymentTransaction
            (verifyPaymentTransaction cons chain tx eTo amt).2
            chain2 tx to2 amt2).1.valid = false ∧
        (verifyPaymentTransaction
            (verifyPaymentTransaction cons chain tx eTo amt).2
            chain2 tx to2 amt2).1.error
          = some "Transaction already used") := by
  intro cons chain tx eTo amt
  constructor
  · intro h
    exact verifyPaymentTransaction_consumed cons chain tx eTo amt h
  · intro h chain2 to2 amt2
    have hmem := verifyPaymentTransaction_success_mem cons chain tx eTo amt h
    have h2 := verifyPaymentTransaction_consumed
      (verifyPaymentTransaction cons chain tx eTo amt).2 chain2 tx to2 amt2
      hmem
    exact ⟨h2.1, h2.2.1⟩

/-- C3 witness: the reference 0xAAA verifies successfully against chainOK on
an empty consumed set, and the immediate replay of the same reference is
rejected as already used; likewise a reference whose lowercase form is
already in the set is rejected on a chain where it would otherwise verify. -/
theorem C3_witness :
    (jsToLower "0xAAA" ∈ ["0xaaa"] ∧
     (verifyPaymentTransaction ["0xaaa"] chainOK "0xAAA" "0xdest"
       1).1.valid = false ∧
     (verifyPaymentTransaction ["0xaaa"] chainOK "0xAAA" "0xdest" 1).1.error
       = some "Transaction already used" ∧
     (verifyPaymentTransaction ["0xaaa"] chainOK "0xAAA" "0xdest" 1).2
       = ["0xaaa"]) ∧
    ((verifyPaymentTransaction [] chainOK "0xAAA" "0xdest" 1).1.valid
       = true ∧
     (verifyPaymentTransaction
         (verifyPaymentTransaction [] chainOK "0xAAA" "0xdest" 1).2
         chainOK "0xAAA" "0xother" 999).1.valid = false ∧
     (verifyPaymentTransaction
         (verifyPaymentTransaction [] chainOK "0xAAA" "0xdest" 1).2
         chainOK "0xAAA" "0xother" 999).1.error
       = some "Transaction already used") :=
  ⟨⟨by decide,
    (C3_thm ["0xaaa"] chainOK "0xAAA" "0xdest" 1).1 (by decide)⟩,
   by decide,
   (C3_thm [] chainOK "0xAAA" "0xdest" 1).2 (by decide) chainOK
     "0xother" 999⟩

/-- C10: a failed direct verification leaves the consumed-reference set
unchanged, whatever the cause of the failure, so the reference stays
resubmittable. -/
theorem C10_thm : ∀ (cons : List String)
    (chain : String → Option TxReceipt) (tx eTo : String) (amt : Int),
    (verifyPaymentTransaction cons chain tx eTo amt).1.valid = false →
    (verifyPaymentTransaction cons chain tx eTo amt).2 = cons := by
  intro cons chain tx eTo amt h
  rcases verifyPaymentTransaction_cases cons chain tx eTo amt with h1 | h1
  · exact h1.2
  · rw [h1.1] at h
    exact absurd h (by simp)

/-- C10 witness: a reference the chain does not know fails and leaves the
consumed set empty. -/
theorem C10_witness :
    (verifyPaymentTransaction [] chainOK "0xBBB" "0xdest" 1).1.valid
      = false ∧
    (verifyPaymentTransaction [] chainOK "0xBBB" "0xdest" 1).2 = [] :=
  ⟨by decide, C10_thm [] chainOK "0xBBB" "0xdest" 1 (by decide)⟩

/-! ## Claim C5 -/

/-- C5: for every stored delegated authorization and every requested amount,
checkAuthorization reports not authorized with needsReauthorization = true
once now ≥ expiresAt, whatever the remaining budget or the on-chain state. -/
theorem C5_thm : ∀ (cfg : AutoPaymentConfig)
    (auths : List (String × UserPaymentAuthorization))
    (onChain : OnChainStatus) (userId userAddress : String)
    (amount now : Int) (auth : UserPaymentAuthorization),
    alistLookup auths (getUserKey userId userAddress) = some auth →
    now ≥ auth.expiresAt →
    (checkAuthorization cfg auths onChain userId userAddress amount
      now).authorized = false ∧
    (checkAuthorization cfg auths onChain userId userAddress amount
      now).needsReauthorization = true := by
  intro cfg auths onChain userId userAddress amount now auth hlook hexp
  have h2 : auth.expiresAt ≤ now := hexp
  unfold checkAuthorization
  rw [hlook]
  dsimp only
  rw [if_pos h2]
  exact ⟨rfl, rfl⟩

/-- C5 witness: an authorization with 100 units of untouched budget, checked
exactly at its expiry second, is unusable and flagged for reauthorization. -/
theorem C5_witness :
    (alistLookup authsExpired (getUserKey "u" "0xa") = some authExpired ∧
     (50 : Int) ≥ authExpired.expiresAt ∧
     authExpired.authorizedAmount - authExpired.spentAmount = 100) ∧
    (checkAuthorization cfgAuto authsExpired onChainOK "u" "0xa" 1
      50).authorized = false ∧
    (checkAuthorization cfgAuto authsExpired onChainOK "u" "0xa" 1
      50).needsReauthorization = true :=
  ⟨⟨by decide, by decide, by decide⟩,
   C5_thm cfgAuto authsExpired onChainOK "u" "0xa" 1 50 authExpired
     (by decide) (by decide)⟩

/-! ## Claim C8 -/

/-- After a cleanup sweep, no surviving entry is both pending and past its
expiry at the sweep time. -/
theorem cleanupExpiredPayments_none_left (now : Int) :
    ∀ (ps : List (String × PaymentRequest)),
    ∀ e ∈ (cleanupExpiredPayments now ps).1,
      ¬(e.2.status = PayStatus.pending ∧ now > e.2.expiresAt) := by
  intro ps
  induction ps with
  | nil =>
    intro e he
    simp [cleanupExpiredPayments] at he
  | cons hd tl ih =>
    obtain ⟨id, payment⟩ := hd
    intro e he
    by_cases hhit : payment.status = PayStatus.pending ∧ now > payment.expiresAt
    · simp only [cleanupExpiredPayments, if_pos hhit] at he
      by_cases hdel :
          ({ payment with status := PayStatus.expired } :
            PaymentRequest).status ≠ PayStatus.pending ∧
          now - payment.createdAt > 86400000
      · rw [if_pos hdel] at he
        exact ih e he
      · rw [if_neg hdel] at he
        rcases List.mem_cons.mp he with h1 | h1
        · rw [h1]
          intro hcon
          exact absurd hcon.1 (by simp)
        · exact ih e h1
    · simp only [cleanupExpiredPayments, if_neg hhit] at he
      by_cases hdel : payment.status ≠ PayStatus.pending ∧
          now - payment.createdAt > 86400000
      · rw [if_pos hdel] at he
        exact ih e he
      · rw [if_neg hdel] at he
        rcases List.mem_cons.mp he with h1 | h1
        · rw [h1]
          exact hhit
        · exact ih e h1

/-- A sweep over a store with nothing pending-and-expired counts zero. -/
theorem cleanupExpiredPayments_count_zero (now : Int) :
    ∀ (ps : List (String × PaymentRequest)),
    (∀ e ∈ ps, ¬(e.2.status = PayStatus.pending ∧ now > e.2.expiresAt)) →
    (cleanupExpiredPayments now ps).2 = 0 := by
  intro ps
  induction ps with
  | nil =>
    intro _
    simp [cleanupExpiredPayments]
  | cons hd tl ih =>
    obtain ⟨id, payment⟩ := hd
    intro hall
    have hhd : ¬(payment.status = PayStatus.pending ∧
        now > payment.expiresAt) :=
      hall (id, payment) (List.mem_cons.mpr (Or.inl rfl))
    have htl : (cleanupExpiredPayments now tl).2 = 0 :=
      ih (fun e he => hall e (List.mem_cons.mpr (Or.inr he)))
    simp only [cleanupExpiredPayments, if_neg hhd]
    by_cases hdel : payment.status ≠ PayStatus.pending ∧
        now - payment.createdAt > 86400000
    · rw [if_pos hdel]
      simpa using htl
    · rw [if_neg hdel]
      simpa using htl

/-- C8: cleanup is idempotent at a fixed time: the first sweep moves every
expired pending request out of the pending state, so a second sweep over its
result counts zero, for every store state. -/
theorem C8_thm : ∀ (now : Int) (ps : List (String × PaymentRequest)),
    (cleanupExpiredPayments now (cleanupExpiredPayments now ps).1).2 = 0 := by
  intro now ps
  exact cleanupExpiredPayments_count_zero now
    (cleanupExpiredPayments now ps).1
    (cleanupExpiredPayments_none_left now ps)

/-! ## Claim C9 -/

/-- C9: resolveConfig does not implement the claimed overlay. With no x402
environment variables set, loadConfigFromEnv still returns every key (enabled
strictly compared to the string true gives false, every other key explicitly
undefined), and the object spread lets those keys override both the supplied
plugin settings and the defaults: a plugin config enabling metering and
supplying network, payTo and quota resolves to enabled = false and undefined
network, payTo, quota and facilitator URL, discarding the supplied settings
and the defaults alike. -/
theorem C9_thm :
    pluginConfigC9.enabled = some (some true) ∧
    pluginConfigC9.network = some (some "eip155:8453") ∧
    pluginConfigC9.payTo
      = some (some "0x1111111111111111111111111111111111111111") ∧
    pluginConfigC9.freeMessagesPerSession = some (some (some 5)) ∧
    DEFAULT_CONFIG.facilitatorUrl
      = some (some "https://x402.org/facilitator") ∧
    (resolveConfig emptyEnv pluginConfigC9).enabled = some (some false) ∧
    (resolveConfig emptyEnv pluginConfigC9).network = some none ∧
    (resolveConfig emptyEnv pluginConfigC9).payTo = some none ∧
    (resolveConfig emptyEnv pluginConfigC9).freeMessagesPerSession
      = some none ∧
    (resolveConfig emptyEnv pluginConfigC9).facilitatorUrl = some none := by
  decide

/-! ## Claim C6 -/

/-- A positive authorization decision implies the record exists and its spent
amount plus the requested amount stays within the ceiling. -/
theorem checkAuthorization_spendable (cfg : AutoPaymentConfig)
    (auths : List (String × UserPaymentAuthorization))
    (onChain : OnChainStatus) (userId userAddress : String)
    (amount now : Int)
    (h : (checkAuthorization cfg auths onChain userId userAddress amount
      now).authorized = true) :
    ∃ auth, alistLookup auths (getUserKey userId userAddress) = some auth ∧
      auth.spentAmount + amount ≤ auth.authorizedAmount := by
  unfold checkAuthorization at h
  cases hl : alistLookup auths (getUserKey userId userAddress) with
  | none =>
    rw [hl] at h
    simp at h
  | some auth =>
    rw [hl] at h
    dsimp only at h
    by_cases h1 : auth.expiresAt ≤ now
    · rw [if_pos h1] at h
      simp at h
    · rw [if_neg h1] at h
      by_cases h2 : auth.authorizedAmount - auth.spentAmount < amount
      · rw [if_pos h2] at h
        simp at h
      · exact ⟨auth, rfl, by omega⟩

/-- The early phase of processPayment only proceeds when the authorization
check passed. -/
theorem processPaymentPhase1_none_authorized (cfg : AutoPaymentConfig)
    (auths : List (String × UserPaymentAuthorization))
    (onChain : OnChainStatus) (now : Int) (request : AutoPaymentRequest)
    (hp : processPaymentPhase1 cfg auths onChain now request = none) :
    (checkAuthorization cfg auths onChain request.userId request.userAddress
      request.amount now).authorized = true := by
  unfold processPaymentPhase1 at hp
  by_cases hmax : request.amount > cfg.maxPaymentAmount
  · rw [if_pos hmax] at hp
    exact absurd hp (by simp)
  · rw [if_neg hmax] at hp
    dsimp only at hp
    by_cases hA : (checkAuthorization cfg auths onChain request.userId
        request.userAddress request.amount now).authorized = true
    · exact hA
    · exfalso
      rw [if_pos (by simp [hA])] at hp
      exact Option.noConfusion hp

/-- processPayment, run to completion, preserves the spending invariant. -/
theorem processPayment_preservesInv (cfg : AutoPaymentConfig)
    (auths : List (String × UserPaymentAuthorization))
    (onChain : OnChainStatus) (now : Int) (simTxHash : String)
    (request : AutoPaymentRequest) (hinv : AuthInvariant auths) :
    AuthInvariant (processPayment cfg auths onChain now simTxHash
      request).2 := by
  unfold processPayment
  cases hp : processPaymentPhase1 cfg auths onChain now request with
  | some e => exact hinv
  | none =>
    have hauth := processPaymentPhase1_none_authorized cfg auths onChain now
      request hp
    obtain ⟨auth, hl, hle⟩ := checkAuthorization_spendable cfg auths onChain
      request.userId request.userAddress request.amount now hauth
    unfold processPaymentCommit
    rw [hl]
    dsimp only
    intro e he
    rcases mem_alistSet auths (getUserKey request.userId request.userAddress)
      { auth with spentAmount := auth.spentAmount + request.amount } e he
      with h1 | h1
    · rw [h1]
      dsimp only
      omega
    · exact hinv e h1

/-- processPendingPayments preserves the spending invariant. -/
theorem processPendingPayments_preservesInv (cfg : AutoPaymentConfig)
    (onChain : OnChainStatus) (now : Int) (simTxHash : String) :
    ∀ (queue : List AutoPaymentRequest)
      (auths : List (String × UserPaymentAuthorization)),
    AuthInvariant auths →
    AuthInvariant (processPendingPayments cfg auths onChain now simTxHash
      queue).2 := by
  intro queue
  induction queue with
  | nil =>
    intro auths hinv
    exact hinv
  | cons request rest ih =>
    intro auths hinv
    exact ih (processPayment cfg auths onChain now simTxHash request).2
      (processPayment_preservesInv cfg auths onChain now simTxHash request
        hinv)

/-- C6: registerAuthorization (with a non-negative ceiling), processPayment,
revokeAuthorization and the queue drain all preserve the invariant that every
stored authorization has spentAmount at most authorizedAmount. -/
theorem C6_thm : ∀ (cfg : AutoPaymentConfig)
    (auths : List (String × UserPaymentAuthorization))
    (userId userAddress : String) (ceiling expiresAt : Int)
    (sig : Option String) (now : Int) (onChain : OnChainStatus)
    (simTxHash : String) (request : AutoPaymentRequest)
    (queue : List AutoPaymentRequest),
    (AuthInvariant auths → 0 ≤ ceiling →
      AuthInvariant (registerAuthorization auths userId userAddress ceiling
        expiresAt sig now)) ∧
    (AuthInvariant auths →
      AuthInvariant (processPayment cfg auths onChain now simTxHash
        request).2) ∧
    (AuthInvariant auths →
      AuthInvariant (revokeAuthorization auths userId userAddress).2) ∧
    (AuthInvariant auths →
      AuthInvariant (processPendingPayments cfg auths onChain now simTxHash
        queue).2) := by
  intro cfg auths userId userAddress ceiling expiresAt sig now onChain
    simTxHash request queue
  refine ⟨?_, ?_, ?_, ?_⟩
  · intro hinv hpos e he
    rcases mem_alistSet auths (getUserKey userId userAddress)
      { userAddress := userAddress, permitSignature := sig,
        authorizedAmount := ceiling, spentAmount := 0,
        expiresAt := expiresAt, createdAt := now } e he with h1 | h1
    · rw [h1]
      simpa using hpos
    · exact hinv e h1
  · intro hinv
    exact processPayment_preservesInv cfg auths onChain now simTxHash
      request hinv
  · intro hinv e he
    exact hinv e (mem_alistDelete auths
      (getUserKey userId userAddress) e he)
  · intro hinv
    exact processPendingPayments_preservesInv cfg onChain now simTxHash
      queue auths hinv

/-- C6 witness: the four operations applied to a concrete map holding a live
authorization with spent 2 of 10 all yield maps satisfying the invariant. -/
theorem C6_witness :
    (AuthInvariant authsLive ∧ (0 : Int) ≤ 50) ∧
    AuthInvariant (registerAuthorization authsLive "v" "0xB" 50 99 none 0) ∧
    AuthInvariant
      (processPayment cfgAuto authsLive onChainOK 10 "0xsim" requestSix).2 ∧
    AuthInvariant (revokeAuthorization authsLive "u" "0xa").2 ∧
    AuthInvariant (processPendingPayments cfgAuto authsLive onChainOK 10
      "0xsim" [requestSix, requestSix]).2 :=
  ⟨⟨by decide, by decide⟩,
   (C6_thm cfgAuto authsLive "v" "0xB" 50 99 none 0 onChainOK "0xsim"
     requestSix [requestSix, requestSix]).1 (by decide) (by decide),
   (C6_thm cfgAuto authsLive "u" "0xa" 50 99 none 10 onChainOK "0xsim"
     requestSix [requestSix, requestSix]).2.1 (by decide),
   (C6_thm cfgAuto authsLive "u" "0xa" 50 99 none 10 onChainOK "0xsim"
     requestSix [requestSix, requestSix]).2.2.1 (by decide),
   (C6_thm cfgAuto authsLive "u" "0xa" 50 99 none 10 onChainOK "0xsim"
     requestSix [requestSix, requestSix]).2.2.2 (by decide)⟩

/-! ## Claim C7 -/

/-- C7: the balance check and the spentAmount increment do not form an atomic
critical section. Each processPayment call awaits an external on-chain status
check between its balance check and its increment; under the interleaving in
which both calls run their checks before either resumes, two calls against
the same authorization with remaining balance 10, each requesting 6, BOTH
succeed, and the stored spentAmount ends at 12, exceeding the authorized
ceiling of 10. Run sequentially instead, the second call fails with the
insufficient-balance reason, as the claim demands. -/
theorem C7_thm :
    (processPaymentInterleavedPair cfgAuto authsTen onChainOK 100 "0xt1"
      "0xt2" requestSix requestSix).1.success = true ∧
    (processPaymentInterleavedPair cfgAuto authsTen onChainOK 100 "0xt1"
      "0xt2" requestSix requestSix).2.1.success = true ∧
    alistLookup (processPaymentInterleavedPair cfgAuto authsTen onChainOK 100
      "0xt1" "0xt2" requestSix requestSix).2.2 "u:0xa"
      = some { authTen with spentAmount := 12 } ∧
    authTen.authorizedAmount < 12 ∧
    (processPayment cfgAuto
      (processPayment cfgAuto authsTen onChainOK 100 "0xt1" requestSix).2
      onChainOK 100 "0xt2" requestSix).1.success = false ∧
    (processPayment cfgAuto
      (processPayment cfgAuto authsTen onChainOK 100 "0xt1" requestSix).2
      onChainOK 100 "0xt2" requestSix).1.error
      = some "Insufficient authorized balance. Remaining: 4 USDC" := by
  decide
